import Mathlib

/-!
Shallow embedding of `src/app/services/fast_lead_filter.py` (class `FastLeadFilter`).

Strings are modelled as `List Char` (Python `str` is a sequence of characters).
Python's `keyword in text` substring test is `substr`; `str.lower()` is `lower`;
`str.split()` (no separator: split on whitespace runs, dropping empties) is
`splitWords`.  The module-level lookup tables `BUSINESS_MAPPINGS` /
`INDUSTRY_MAPPINGS` are external configuration data; their contents are
parameters of the model (a `Mappings` state), while the code's *use* of them
(including the in-place `list.extend` aliasing in `_rule_based_filter`) is
modelled faithfully by explicit state passing.  External collaborator results
(the AI enhancer's keyword list, the configured threshold) are parameters.
Exceptions are modelled by explicit failure-injection arguments: `Option`
values saying whether (and where) a `try` block raises.
-/

set_option linter.unusedVariables false

namespace HopeFilter

/-- Python `str.lower()`, character by character. -/
def lower (s : List Char) : List Char := s.map Char.toLower

/-- Python substring containment `needle in haystack` for strings. -/
def substr (needle : List Char) : List Char → Bool
  | [] => needle.isEmpty
  | c :: t => needle.isPrefixOf (c :: t) || substr needle t

/-- Auxiliary for `splitWords`: accumulates the current word reversed. -/
def splitWordsAux : List Char → List Char → List (List Char)
  | [], acc => if acc.isEmpty then [] else [acc.reverse]
  | c :: cs, acc =>
    if c.isWhitespace then
      (if acc.isEmpty then splitWordsAux cs [] else acc.reverse :: splitWordsAux cs [])
    else splitWordsAux cs (c :: acc)

/-- Python `str.split()` with no argument: split on whitespace runs, no empty words. -/
def splitWords (s : List Char) : List (List Char) := splitWordsAux s []

/-- The apostrophe character (used inside the indicator string for cannot-contractions). -/
def apos : Char := Char.ofNat 39

/-- The fixed struggle-indicator phrase list of `_rule_based_filter` (source lines 100-106). -/
def struggleIndicators : List (List Char) :=
  [("struggling").toList, ("help").toList,
   ("can").toList ++ [apos] ++ ("t").toList,
   ("cannot").toList, ("can not").toList, ("trouble").toList, ("problem").toList,
   ("issue").toList, ("stuck").toList, ("frustrated").toList, ("overwhelmed").toList,
   ("desperate").toList, ("urgent").toList, ("failing").toList, ("lost").toList,
   ("losing").toList, ("declining").toList, ("first client").toList,
   ("first customer").toList, ("no customers").toList, ("no clients").toList,
   ("getting clients").toList, ("customer acquisition").toList,
   ("lead generation").toList, ("need help").toList, ("looking for").toList,
   ("how to").toList, ("what should").toList, ("any advice").toList]

/-- The search text of `_rule_based_filter`: lowercased title, a space, lowercased content. -/
def searchText (title content : List Char) : List Char :=
  lower title ++ [' '] ++ lower content

/-- Number of keywords of `kws` whose lowercased form occurs as a substring of `text`
(one hit per keyword list entry, so duplicated entries count again). -/
def keywordHits (kws : List (List Char)) (text : List Char) : Nat :=
  kws.countP (fun k => substr (lower k) text)

/-- Number of struggle indicators occurring as substrings of `text`. -/
def indicatorHits (text : List Char) : Nat :=
  struggleIndicators.countP (fun s => substr s text)

/-- Points from lowercased problem-description words longer than 3 characters that
occur as substrings of `text` (1 point each). -/
def problemWordHits (problemDescription text : List Char) : Nat :=
  (splitWords (lower problemDescription)).countP
    (fun w => decide (3 < w.length) && substr w text)

/-- The relevance score loop of `_rule_based_filter` (source lines 121-142):
3 points per combined-list keyword found, 2 per struggle indicator, 4 per
enhanced keyword found, 1 per long problem-description word found. -/
def relevanceScore (allKeywords enhancedKeywords : List (List Char))
    (problemDescription title content : List Char) : Nat :=
  let text := searchText title content
  3 * keywordHits allKeywords text + 2 * indicatorHits text
    + 4 * keywordHits enhancedKeywords text + problemWordHits problemDescription text

/-- An input post (a Python dict; `.get` defaults are modelled by total fields).
`relevance_score` is the transient annotation written during scoring. -/
structure Post where
  title : List Char
  content : List Char
  subreddit : List Char
  permalink : List Char
  author : List Char
  created_utc : Int
  score : Int
  relevance_score : Nat
deriving DecidableEq

/-- Scoring writes the computed relevance score onto the post (source line 145). -/
def scorePost (allKeywords enhancedKeywords : List (List Char))
    (problemDescription : List Char) (p : Post) : Post :=
  { p with relevance_score :=
      relevanceScore allKeywords enhancedKeywords problemDescription p.title p.content }

/-- The comparison used by the sort at source line 152 (descending relevance score):
`scoreGE a b` holds when `a`'s score is at least `b`'s. -/
def scoreGE (a b : Post) : Prop := b.relevance_score ≤ a.relevance_score

instance : DecidableRel scoreGE := fun a b => Nat.decLe _ _

instance : IsTotal Post scoreGE :=
  ⟨fun a b => Nat.le_total b.relevance_score a.relevance_score⟩

instance : IsTrans Post scoreGE :=
  ⟨fun _ _ _ h1 h2 => Nat.le_trans h2 h1⟩

/-- The threshold selection and sort of `_rule_based_filter` (source lines 144-152):
keep posts with score at least the threshold, in input order, then stable-sort by
descending score.  Python `list.sort(key=..., reverse=True)` is a stable sort and
therefore computes the same list as stable insertion sort under `scoreGE`. -/
def thresholdFilter (threshold : Nat) (posts : List Post) : List Post :=
  List.insertionSort scoreGE
    (posts.filter (fun p => decide (threshold ≤ p.relevance_score)))

/-- The external lookup tables `BUSINESS_MAPPINGS` / `INDUSTRY_MAPPINGS`, reduced to
their `keywords` entries, as mutable state (Python dicts hold shared list objects). -/
structure Mappings where
  businessMappings : List (String × List (List Char))
  industryMappings : List (String × List (List Char))
deriving DecidableEq

/-- Replacing the list object stored under key `k` (the effect of mutating it in place). -/
def updateAssoc (m : List (String × List (List Char))) (k : String)
    (v : List (List Char)) : List (String × List (List Char)) :=
  m.map (fun kv => if kv.1 == k then (kv.1, v) else kv)

/-- Keyword resolution of `_rule_based_filter` (source lines 85-88).
`business_keywords` aliases the list stored in `BUSINESS_MAPPINGS`, so when an
industry type is supplied, `business_keywords.extend(industry_keywords)` mutates
the stored list: the returned state reflects that.  When the business type is
unknown, the default `[]` is a fresh list and the extend is invisible. -/
def resolveKeywords (st : Mappings) (businessType : String) (industryType : Option String) :
    List (List Char) × Mappings :=
  match industryType with
  | none => (((st.businessMappings.lookup businessType).getD []), st)
  | some it =>
    let industryKeywords := (st.industryMappings.lookup it).getD []
    match st.businessMappings.lookup businessType with
    | none => (industryKeywords, st)
    | some kws =>
      let extended := kws ++ industryKeywords
      (extended,
       { st with businessMappings := updateAssoc st.businessMappings businessType extended })

/-- `_rule_based_filter` (source lines 79-164): resolve keywords (mutating the
mappings state via the aliasing extend), combine with the enhancer's keywords,
score every post, select by threshold and sort descending. -/
def ruleBasedFilter (st : Mappings) (enhancedKeywords : List (List Char))
    (threshold : Nat) (posts : List Post) (problemDescription : List Char)
    (businessType : String) (industryType : Option String) : List Post × Mappings :=
  let resolved := resolveKeywords st businessType industryType
  let allKeywords := resolved.1 ++ enhancedKeywords
  let scored := posts.map (scorePost allKeywords enhancedKeywords problemDescription)
  (thresholdFilter threshold scored, resolved.2)

/-- The `Lead` record built by `_create_leads_from_posts` (source lines 172-186). -/
structure Lead where
  title : List Char
  subreddit : List Char
  snippet : List Char
  permalink : List Char
  author : List Char
  created_utc : Int
  score : Int
  matched_keywords : List (List Char)
  ai_relevance_score : Nat
  urgency_level : List Char
  business_context : List Char
  problem_category : List Char
  ai_summary : List Char
deriving DecidableEq

/-- The snippet expression at source line 175: first 200 characters plus an
ellipsis marker when the content exceeds 200 characters, the content verbatim
otherwise. -/
def mkSnippet (content : List Char) : List Char :=
  if 200 < content.length then content.take 200 ++ ("...").toList else content

/-- Building one `Lead` from a post (`_create_leads_from_posts`, source lines 172-186). -/
def createLead (problemDescription : List Char) (businessType : String) (p : Post) : Lead :=
  { title := p.title
    subreddit := p.subreddit
    snippet := mkSnippet p.content
    permalink := p.permalink
    author := p.author
    created_utc := p.created_utc
    score := p.score
    matched_keywords := []
    ai_relevance_score := p.relevance_score
    urgency_level := ("Medium").toList
    business_context := businessType.toList
    problem_category := ("General").toList
    ai_summary := [] }

/-- `_create_leads_from_posts` over the batch (source lines 166-192). -/
def createLeadsFromPosts (posts : List Post) (problemDescription : List Char)
    (businessType : String) : List Lead :=
  posts.map (createLead problemDescription businessType)

/-- The matching-word list of `_add_simple_summaries` (source lines 240-244): the
lowercased problem-description words that occur among the lowercased title words,
in problem-description order.  It is a list comprehension, so duplicated
problem-description words are retained. -/
def matchingWords (title problemDescription : List Char) : List (List Char) :=
  let titleWords := splitWords (lower title)
  let problemWords := splitWords (lower problemDescription)
  problemWords.filter (fun w => titleWords.contains w)

/-- The summary string built for one lead in the `try` body of
`_add_simple_summaries` (source lines 246-249). -/
def simpleSummary (l : Lead) (problemDescription : List Char) : List Char :=
  let mw := matchingWords l.title problemDescription
  if mw.isEmpty then
    ("Post about ").toList ++ lower problemDescription ++ (" - ").toList
      ++ l.title.take 80 ++ ("...").toList
  else
    ("Post about ").toList ++ List.intercalate ((", ").toList) mw ++ (" - ").toList
      ++ l.title.take 80 ++ ("...").toList

/-- The fallback summary of the `except` handler of `_add_simple_summaries`
(source line 260): 100-character title truncation. -/
def fallbackSummary (l : Lead) (problemDescription : List Char) : List Char :=
  ("Post about ").toList ++ lower problemDescription ++ (" - ").toList
    ++ l.title.take 100 ++ ("...").toList

/-- Assignment `lead.ai_summary = s`. -/
def setSummary (l : Lead) (s : List Char) : Lead := { l with ai_summary := s }

/-- State of the lead list at the moment an exception aborts the `try` loop of
`_add_simple_summaries` after `k` leads have been annotated. -/
def annotateUpTo : Nat → List Lead → List Char → List Lead
  | _, [], _ => []
  | 0, leads, _ => leads
  | Nat.succ k, l :: ls, pd => setSummary l (simpleSummary l pd) :: annotateUpTo k ls pd

/-- `_add_simple_summaries` (source lines 232-261) with failure injection:
`raiseAfter = none` runs the `try` body to completion; `raiseAfter = some k`
models an exception raised after `k` leads were annotated, upon which the
`except` handler overwrites every lead's summary with the 100-character
fallback and returns the list. -/
def addSimpleSummaries (raiseAfter : Option Nat) (leads : List Lead)
    (problemDescription : List Char) : List Lead :=
  match raiseAfter with
  | none => leads.map (fun l => setSummary l (simpleSummary l problemDescription))
  | some k => (annotateUpTo k leads problemDescription).map
      (fun l => setSummary l (fallbackSummary l problemDescription))

/-- The metrics dict of `filter_posts`.  `results_returned` is `none` while the
key is absent (it is only added by the update at source lines 66-69);
`cost` is the constant `0.0`, modelled as a natural number. -/
structure Metrics where
  posts_analyzed : Nat
  posts_filtered : Nat
  summaries_generated : Nat
  tokens_used : Nat
  cost : Nat
  filter_method : List Char
  summary_method : List Char
  results_returned : Option Nat
deriving DecidableEq

/-- The metrics reset at the start of `filter_posts` (source lines 42-50). -/
def initialMetrics (n : Nat) : Metrics :=
  { posts_analyzed := n
    posts_filtered := 0
    summaries_generated := 0
    tokens_used := 0
    cost := 0
    filter_method := ("rule_based").toList
    summary_method := ("openai").toList
    results_returned := none }

/-- Which pipeline step of the `try` block of `filter_posts` raises. -/
inductive PipelineStep
  | filtering
  | leadCreation
  | summarization
deriving DecidableEq

/-- `filter_posts` (source lines 33-77) with failure injection.  The metrics are
reset before the `try`; on an exception in any step the `except` handler returns
an empty lead list with the metrics recorded so far (the keyword-table mutation
of `_rule_based_filter`, which happens before the fallible enhancer call, has
already taken effect on the mappings state).  On success the metrics are updated
with the filtered and returned counts.  Returns ((leads, metrics), mappings). -/
def filterPosts (raisesAt : Option PipelineStep) (st : Mappings)
    (enhancedKeywords : List (List Char)) (threshold : Nat) (posts : List Post)
    (problemDescription : List Char) (businessType : String)
    (industryType : Option String) : (List Lead × Metrics) × Mappings :=
  let m0 := initialMetrics posts.length
  match raisesAt with
  | some _ =>
    (([], m0), (resolveKeywords st businessType industryType).2)
  | none =>
    let fp := ruleBasedFilter st enhancedKeywords threshold posts problemDescription
      businessType industryType
    let leads := createLeadsFromPosts fp.1 problemDescription businessType
    let leads2 := if leads.isEmpty then leads
      else addSimpleSummaries none leads problemDescription
    let m1 := { m0 with posts_filtered := fp.1.length,
                        results_returned := some leads2.length }
    ((leads2, m1), fp.2)

/-! ### Theorems -/

/-- Helper: the empty needle is a substring of every haystack (Python's empty
string is contained in every string). -/
theorem substr_nil (l : List Char) : substr [] l = true := by
  cases l <;> simp [substr, List.isPrefixOf]

/-- Claim C1 counterexample: with no business keywords and the single enhanced
keyword "zzz", a post titled "zzz" (empty content, empty problem description)
scores 7, not 4 — the enhanced keyword is also counted by the 3-point
combined-keyword pass. -/
theorem C1_counterexample :
    relevanceScore ([] ++ [("zzz").toList]) [("zzz").toList] [] (("zzz").toList) [] = 7 ∧
    ¬ (relevanceScore ([] ++ [("zzz").toList]) [("zzz").toList] [] (("zzz").toList) [] = 4) := by
  constructor <;> decide

/-- Claim C1 (amended): a keyword contributed by the problem-description
enhancement step that is found in the search text contributes 7 points in total
(3 from the combined keyword pass, which includes the enhanced keywords, plus 4
from the enhanced pass), not 4. -/
theorem C1_amended (business enhanced : List (List Char))
    (k problemDescription title content : List Char)
    (h : substr (lower k) (searchText title content) = true) :
    relevanceScore (business ++ (enhanced ++ [k])) (enhanced ++ [k])
        problemDescription title content =
      relevanceScore (business ++ enhanced) enhanced problemDescription title content + 7 := by
  simp [relevanceScore, keywordHits, List.countP_append, List.countP_cons, h]
  omega

/-- Witness for claim C1 (amended) at the counterexample input. -/
theorem C1_amended_witness :
    relevanceScore ([] ++ ([] ++ [("zzz").toList])) ([] ++ [("zzz").toList]) []
        (("zzz").toList) [] =
      relevanceScore ([] ++ []) [] [] (("zzz").toList) [] + 7 :=
  C1_amended [] [] (("zzz").toList) [] (("zzz").toList) [] (by decide)

/-- Claim C10: an empty keyword in the resolved list is a substring of every
search text, so it uniformly adds 3 points to every document's score, and 7
when it is an enhanced keyword (3 from the combined pass plus 4 more from the
enhanced pass); in particular a document with empty title and content already
scores at least 3. -/
theorem C10_empty_keyword (business enhanced : List (List Char))
    (problemDescription title content : List Char) :
    (relevanceScore ((business ++ [[]]) ++ enhanced) enhanced
         problemDescription title content =
       relevanceScore (business ++ enhanced) enhanced problemDescription title content + 3) ∧
    (relevanceScore (business ++ (enhanced ++ [[]])) (enhanced ++ [[]])
         problemDescription title content =
       relevanceScore (business ++ enhanced) enhanced problemDescription title content + 7) ∧
    3 ≤ relevanceScore ((business ++ [[]]) ++ enhanced) enhanced problemDescription [] [] := by
  have hl : lower [] = [] := rfl
  refine ⟨?_, ?_, ?_⟩
  · simp [relevanceScore, keywordHits, List.countP_append, List.countP_cons, hl, substr_nil]
    omega
  · simp [relevanceScore, keywordHits, List.countP_append, List.countP_cons, hl, substr_nil]
    omega
  · simp [relevanceScore, keywordHits, List.countP_append, List.countP_cons, hl, substr_nil]
    omega

/-- An already-scored document, for the threshold and sorting claims. -/
def scoredPost (n : Nat) (name : List Char) : Post :=
  { title := name, content := [], subreddit := [], permalink := [], author := name,
    created_utc := 0, score := 0, relevance_score := n }

/-- Example documents with the specification's scores [2, 8, 5, 5, 1]. -/
def d2 : Post := scoredPost 2 (("p1").toList)

/-- Example document with score 8. -/
def d8 : Post := scoredPost 8 (("p2").toList)

/-- Example document with score 5 (first of two). -/
def d5a : Post := scoredPost 5 (("p3").toList)

/-- Example document with score 5 (second of two). -/
def d5b : Post := scoredPost 5 (("p4").toList)

/-- Example document with score 1. -/
def d1 : Post := scoredPost 1 (("p5").toList)

/-- Claim C3: the threshold filter keeps exactly the documents whose relevance
score is at least the threshold — soundness and completeness. -/
theorem C3_threshold_sound_complete (t : Nat) (D : List Post) :
    (∀ p ∈ thresholdFilter t D, t ≤ p.relevance_score) ∧
    (∀ p ∈ D, t ≤ p.relevance_score → p ∈ thresholdFilter t D) := by
  constructor
  · intro p hp
    have hmem : p ∈ D.filter (fun q => decide (t ≤ q.relevance_score)) := by
      simpa [thresholdFilter] using hp
    simpa using (List.mem_filter.1 hmem).2
  · intro p hp ht
    have hmem : p ∈ D.filter (fun q => decide (t ≤ q.relevance_score)) :=
      List.mem_filter.2 ⟨hp, by simpa using ht⟩
    simpa [thresholdFilter] using hmem

/-- Witness for claim C3 at the specification's example scores. -/
theorem C3_witness : d8 ∈ thresholdFilter 5 [d2, d8, d5a, d5b, d1] :=
  (C3_threshold_sound_complete 5 [d2, d8, d5a, d5b, d1]).2 d8 (by decide) (by decide)

/-- Helper: sorting with the descending-score relation does not change the
subsequence of documents carrying any one fixed score (stability of the stable
insertion sort that models Python's stable list sort). -/
theorem filter_score_insertionSort (L : List Post) (s : Nat) :
    (List.insertionSort scoreGE L).filter (fun p => p.relevance_score == s) =
      L.filter (fun p => p.relevance_score == s) := by
  have hperm :
      List.Perm ((List.insertionSort scoreGE L).filter (fun p => p.relevance_score == s))
        (L.filter (fun p => p.relevance_score == s)) :=
    (List.perm_insertionSort scoreGE L).filter _
  have hpair : (L.filter (fun p => p.relevance_score == s)).Pairwise scoreGE := by
    apply List.pairwise_of_forall_mem_list
    intro a ha b hb
    have ha2 : a.relevance_score = s := by
      simpa using (List.mem_filter.1 ha).2
    have hb2 : b.relevance_score = s := by
      simpa using (List.mem_filter.1 hb).2
    simp [scoreGE, ha2, hb2]
  have hsub : List.Sublist (L.filter (fun p => p.relevance_score == s))
      (List.insertionSort scoreGE L) :=
    List.sublist_insertionSort hpair (List.filter_sublist L)
  have hidem : (L.filter (fun p => p.relevance_score == s)).filter
      (fun p => p.relevance_score == s) = L.filter (fun p => p.relevance_score == s) :=
    List.filter_eq_self.2 (fun a ha => (List.mem_filter.1 ha).2)
  have hsub2 : List.Sublist (L.filter (fun p => p.relevance_score == s))
      ((List.insertionSort scoreGE L).filter (fun p => p.relevance_score == s)) := by
    have := hsub.filter (fun p => p.relevance_score == s)
    rwa [hidem] at this
  exact (hsub2.eq_of_length hperm.length_eq.symm).symm

/-- Claim C4: the threshold filter's output is sorted by descending relevance
score, and documents of any one fixed score form the same subsequence before
and after sorting — equal-score documents keep their input order. -/
theorem C4_sorted_stable (t : Nat) (D : List Post) :
    List.Sorted scoreGE (thresholdFilter t D) ∧
    ∀ s : Nat, (thresholdFilter t D).filter (fun p => p.relevance_score == s) =
      (D.filter (fun p => decide (t ≤ p.relevance_score))).filter
        (fun p => p.relevance_score == s) := by
  constructor
  · exact List.sorted_insertionSort scoreGE _
  · intro s
    exact filter_score_insertionSort _ s

/-- Witness for claim C4: the specification's example — threshold 5 on scores
[2, 8, 5, 5, 1] yields the score-8 document first, then the two score-5
documents in their original relative order. -/
theorem C4_witness :
    List.Sorted scoreGE (thresholdFilter 5 [d2, d8, d5a, d5b, d1]) ∧
    thresholdFilter 5 [d2, d8, d5a, d5b, d1] = [d8, d5a, d5b] :=
  ⟨(C4_sorted_stable 5 [d2, d8, d5a, d5b, d1]).1, by decide⟩

/-- Claim C5: the built lead's snippet is at most 203 characters; content of at
most 200 characters is copied verbatim with no marker; longer content yields its
first 200 characters followed by the three-character ellipsis marker. -/
theorem C5_snippet (problemDescription : List Char) (businessType : String) (p : Post) :
    (createLead problemDescription businessType p).snippet.length ≤ 203 ∧
    (p.content.length ≤ 200 →
      (createLead problemDescription businessType p).snippet = p.content) ∧
    (200 < p.content.length →
      (createLead problemDescription businessType p).snippet =
        p.content.take 200 ++ ("...").toList) := by
  have hdots : (("...").toList).length = 3 := rfl
  refine ⟨?_, ?_, ?_⟩
  · show (mkSnippet p.content).length ≤ 203
    unfold mkSnippet
    split
    · simp [List.length_append, List.length_take, hdots]
    · omega
  · intro h
    show mkSnippet p.content = p.content
    unfold mkSnippet
    rw [if_neg (by omega)]
  · intro h
    show mkSnippet p.content = p.content.take 200 ++ ("...").toList
    unfold mkSnippet
    rw [if_pos h]

/-- A short-content post for the C5 witness. -/
def shortPost : Post :=
  { title := [], content := ("hi").toList, subreddit := [], permalink := [],
    author := [], created_utc := 0, score := 0, relevance_score := 0 }

/-- A 201-character-content post for the C5 witness. -/
def longPost : Post :=
  { title := [], content := List.replicate 201 ('a'), subreddit := [], permalink := [],
    author := [], created_utc := 0, score := 0, relevance_score := 0 }

/-- Witness for claim C5 at a short and a long content. -/
theorem C5_witness :
    (createLead [] ("b") shortPost).snippet = shortPost.content ∧
    (createLead [] ("b") longPost).snippet = longPost.content.take 200 ++ ("...").toList ∧
    (createLead [] ("b") longPost).snippet.length ≤ 203 := by
  have hlong : 200 < longPost.content.length := by
    show 200 < (List.replicate 201 ('a')).length
    rw [List.length_replicate]
    omega
  have hshort : shortPost.content.length ≤ 200 := by
    decide
  exact ⟨(C5_snippet [] ("b") shortPost).2.1 hshort,
         (C5_snippet [] ("b") longPost).2.2 hlong,
         (C5_snippet [] ("b") longPost).1⟩

/-- A lead titled "client" for the C6 counterexample. -/
def c6Lead : Lead :=
  { title := ("client").toList, subreddit := [], snippet := [], permalink := [],
    author := [], created_utc := 0, score := 0, matched_keywords := [],
    ai_relevance_score := 0, urgency_level := [], business_context := [],
    problem_category := [], ai_summary := [] }

/-- Claim C6 counterexample: for title "client" and problem description
"client client", the code's summary lists the matching word twice — a
duplicated problem-description word is not collapsed into a set, contrary to
the claim's "each at most once". -/
theorem C6_counterexample :
    (addSimpleSummaries none [c6Lead] (("client client").toList)).map
        (fun l => l.ai_summary) =
      [("Post about client, client - client...").toList] ∧
    ¬ ((addSimpleSummaries none [c6Lead] (("client client").toList)).map
        (fun l => l.ai_summary) =
      [("Post about client - client...").toList]) := by
  constructor <;> decide

/-- Follows the amended specification words for the summary annotator: the
matches are the lowercased problem-description words — duplicates retained, in
problem-description order — that occur among the lowercased title words; with
matches the summary comma-joins them, otherwise it uses the lowercased problem
description, each followed by the title truncated to 80 characters and an
ellipsis marker. -/
def specSummary (l : Lead) (problemDescription : List Char) : List Char :=
  let titleWords := splitWords (lower l.title)
  let matchWords := (splitWords (lower problemDescription)).filter
    (fun w => titleWords.contains w)
  if matchWords.isEmpty then
    ("Post about ").toList ++ lower problemDescription ++ (" - ").toList
      ++ l.title.take 80 ++ ("...").toList
  else
    ("Post about ").toList ++ List.intercalate ((", ").toList) matchWords ++ (" - ").toList
      ++ l.title.take 80 ++ ("...").toList

/-- The specification's own example lead, titled "How do I get my first client". -/
def exLead : Lead :=
  { title := ("How do I get my first client").toList, subreddit := [], snippet := [],
    permalink := [], author := [], created_utc := 0, score := 0, matched_keywords := [],
    ai_relevance_score := 0, urgency_level := [], business_context := [],
    problem_category := [], ai_summary := [] }

/-- Claim C6 (amended): successful annotation sets every lead's summary to the
amended specification form, in which the matching words keep duplicates (a
list, not a set), in problem-description order; the specification's example
(title "How do I get my first client", problem description "getting first
client fast") produces "Post about first, client - How do I get my first
client...". -/
theorem C6_amended :
    (∀ (leads : List Lead) (problemDescription : List Char),
      addSimpleSummaries none leads problemDescription =
        leads.map (fun l => { l with ai_summary := specSummary l problemDescription })) ∧
    (addSimpleSummaries none [exLead] (("getting first client fast").toList)).map
        (fun l => l.ai_summary) =
      [("Post about first, client - How do I get my first client...").toList] := by
  constructor
  · intro leads problemDescription
    rfl
  · decide

/-- Helper: the except-handler's wholesale overwrite erases whatever the aborted
try-loop had written, so the result does not depend on where the loop stopped. -/
theorem fallback_annotateUpTo (pd : List Char) (k : Nat) (leads : List Lead) :
    (annotateUpTo k leads pd).map (fun l => setSummary l (fallbackSummary l pd)) =
      leads.map (fun l => setSummary l (fallbackSummary l pd)) := by
  induction leads generalizing k with
  | nil => cases k <;> rfl
  | cons l ls ih =>
    cases k with
    | zero => rfl
    | succ k => simpa [annotateUpTo, setSummary, fallbackSummary] using ih k

/-- Claim C7: if summary annotation raises at any point of the batch, every lead
(not only the failing one) receives the fallback summary built with a
100-character title truncation, and the annotator returns the full lead list. -/
theorem C7_batch_fallback (k : Nat) (leads : List Lead) (problemDescription : List Char) :
    addSimpleSummaries (some k) leads problemDescription =
      leads.map (fun l => setSummary l
        (("Post about ").toList ++ lower problemDescription ++ (" - ").toList
          ++ l.title.take 100 ++ ("...").toList)) ∧
    (addSimpleSummaries (some k) leads problemDescription).length = leads.length := by
  have h := fallback_annotateUpTo problemDescription k leads
  constructor
  · simpa [addSimpleSummaries, setSummary, fallbackSummary] using h
  · simp only [addSimpleSummaries]
    rw [h]
    simp

/-- Claim C8: an exception raised in any step of the pipeline makes filter_posts
return an empty lead list together with the metrics recorded before the failure
(the initial metrics written at the start of the run), instead of propagating
the failure. -/
theorem C8_failure_empty (step : PipelineStep) (st : Mappings)
    (enhancedKeywords : List (List Char)) (threshold : Nat) (posts : List Post)
    (problemDescription : List Char) (businessType : String)
    (industryType : Option String) :
    (filterPosts (some step) st enhancedKeywords threshold posts problemDescription
        businessType industryType).1 = ([], initialMetrics posts.length) := rfl

/-- Claim C9: filter_posts on an empty document list returns an empty lead list
and metrics reporting zero analyzed posts, zero filtered posts and zero
returned leads. -/
theorem C9_empty_input (st : Mappings) (enhancedKeywords : List (List Char))
    (threshold : Nat) (problemDescription : List Char) (businessType : String)
    (industryType : Option String) :
    (filterPosts none st enhancedKeywords threshold [] problemDescription
        businessType industryType).1.1 = [] ∧
    (filterPosts none st enhancedKeywords threshold [] problemDescription
        businessType industryType).1.2.posts_analyzed = 0 ∧
    (filterPosts none st enhancedKeywords threshold [] problemDescription
        businessType industryType).1.2.posts_filtered = 0 ∧
    (filterPosts none st enhancedKeywords threshold [] problemDescription
        businessType industryType).1.2.results_returned = some 0 :=
  ⟨rfl, rfl, rfl, rfl⟩

/-- Lookup tables for the C2 refutation: business type "b" maps to the keyword
"alpha", industry type "i" maps to the keyword "beta". -/
def c2State : Mappings :=
  { businessMappings := [(("b"), [("alpha").toList])],
    industryMappings := [(("i"), [("beta").toList])] }

/-- The document used for the C2 refutation, titled "alpha beta". -/
def c2Post : Post :=
  { title := ("alpha beta").toList, content := [], subreddit := [], permalink := [],
    author := [], created_utc := 0, score := 0, relevance_score := 0 }

/-- The first pipeline run of the C2 refutation. -/
def c2Run1 : (List Lead × Metrics) × Mappings :=
  filterPosts none c2State [] 1 [c2Post] [] ("b") (some ("i"))

/-- The second pipeline run of the C2 refutation, with arguments identical to
the first and the mappings state the first run left behind. -/
def c2Run2 : (List Lead × Metrics) × Mappings :=
  filterPosts none c2Run1.2 [] 1 [c2Post] [] ("b") (some ("i"))

/-- Claim C2 is violated by the code: the first run's in-place extend rewrites
the business lookup entry for "b" from ["alpha"] to ["alpha", "beta"], and the
second run — identical arguments, identical collaborator results — scores the
same post 9 instead of 6, because the keyword is re-appended and counted again. -/
theorem C2_failing_run :
    (c2Run1.1.1.map (fun l => l.ai_relevance_score) = [6] ∧
     c2Run2.1.1.map (fun l => l.ai_relevance_score) = [9]) ∧
    ¬ (c2Run1.2.businessMappings.lookup ("b") =
        c2State.businessMappings.lookup ("b")) := by
  refine ⟨⟨?_, ?_⟩, ?_⟩ <;> decide

end HopeFilter
